import Mathlib

/-!
# Verification of the VAULT affidavit service (`src/app.py`)

A shallow embedding of the single-file FastAPI service that generates PDF
transaction affidavits.  Pure logic (string manipulation, table construction,
path joining/resolution, the order of canvas drawing operations) is translated
directly from the source; external collaborators are modelled explicitly:

* the clock (`datetime.now()`) and the random source (`uuid.uuid4().hex`)
  become explicit parameters of the functions that consume them;
* the filesystem becomes an association list from resolved path-segment lists
  to blobs, with `FileResponse` as lookup and `open(..., "wb")` as a write
  that succeeds only when the kernel's walk to the parent directory succeeds
  (the deployment's directories are the working directory and the store
  created by `os.makedirs` at startup — the service never creates others);
* the ReportLab canvas becomes an explicit graphics-state machine and
  `add_page_elements` the list of operations it performs on it;
* the PDF byte rendering of the flowable list is treated as opaque: a stored
  artifact is identified with the flowable (`Element`) list it was built from,
  and the textual rendering of a Python `float` is abstracted by carrying the
  amount's decimal text in the record (no claim depends on float arithmetic).
-/

deriving instance DecidableEq for Except

namespace VaultApi

/-! ## Date-time values

`datetime` objects as pydantic parses them: wall-clock calendar fields plus an
optional fixed utcoffset in minutes (`None` for naive datetimes). -/

structure DateTimeV where
  year : Nat
  month : Nat
  day : Nat
  hour : Nat
  minute : Nat
  second : Nat
  tzOffsetMinutes : Option Int
deriving Repr, DecidableEq

/-- `%B`: the full month name used by `strftime`. -/
def monthName : Nat → String
  | 1 => "January"
  | 2 => "February"
  | 3 => "March"
  | 4 => "April"
  | 5 => "May"
  | 6 => "June"
  | 7 => "July"
  | 8 => "August"
  | 9 => "September"
  | 10 => "October"
  | 11 => "November"
  | 12 => "December"
  | _ => ""

/-- Zero-pad a number to two digits (`%d`, `%m`, `%H`, `%M`, `%S`). -/
def pad2 (n : Nat) : String :=
  if n < 10 then "0" ++ toString n else toString n

/-- `d.strftime("%B %d, %Y at %H:%M:%S UTC")` (app.py line 245).  Like
Python's `strftime`, it formats the datetime's own wall-clock fields; the
trailing `UTC` is a literal in the format string and no timezone conversion
happens. -/
def strftimeLongUTC (d : DateTimeV) : String :=
  monthName d.month ++ " " ++ pad2 d.day ++ ", " ++ toString d.year ++
    " at " ++ pad2 d.hour ++ ":" ++ pad2 d.minute ++ ":" ++ pad2 d.second ++ " UTC"

/-- `now.strftime("%B %d, %Y at %H:%M:%S")` (app.py line 294). -/
def strftimeLong (d : DateTimeV) : String :=
  monthName d.month ++ " " ++ pad2 d.day ++ ", " ++ toString d.year ++
    " at " ++ pad2 d.hour ++ ":" ++ pad2 d.minute ++ ":" ++ pad2 d.second

/-- `now.strftime("%Y-%m-%d %H:%M:%S")` (app.py line 166, footer text). -/
def strftimeNumeric (d : DateTimeV) : String :=
  toString d.year ++ "-" ++ pad2 d.month ++ "-" ++ pad2 d.day ++ " " ++
    pad2 d.hour ++ ":" ++ pad2 d.minute ++ ":" ++ pad2 d.second

/-! ## Request model (`AffidavitRequest`, app.py lines 48-55) -/

/-- The validated request body.  `amount` is a Python `float`; since no claim
depends on float arithmetic, the field carries the decimal text that Python's
string interpolation would render for it. -/
structure AffidavitRequest where
  sender : String
  receiver : String
  amount : String
  currency : String
  date : DateTimeV
  transactionId : String
  notes : Option String
deriving Repr, DecidableEq

/-- The raw request body before pydantic validation: each field may be absent.
Pydantic validation of `AffidavitRequest` checks presence and type only; no
field has any content constraint. -/
structure RawRequest where
  sender : Option String
  receiver : Option String
  amount : Option String
  currency : Option String
  date : Option DateTimeV
  transactionId : Option String
  notes : Option String
deriving Repr, DecidableEq

/-- Pydantic validation of the request body: every non-`Optional` field must
be present; `notes` defaults to `None`.  Succeeds with the parsed record or
fails (FastAPI then answers 422). -/
def validateRequest (r : RawRequest) : Option AffidavitRequest :=
  match r.sender, r.receiver, r.amount, r.currency, r.date, r.transactionId with
  | some s, some rc, some a, some c, some d, some t =>
      some ⟨s, rc, a, c, d, t, r.notes⟩
  | _, _, _, _, _, _ => none

/-! ## String primitives

Kernel-reducible models of the Python string methods the service uses. -/

/-- `s.startswith(pre)`. -/
def pyStartsWith (s pre : String) : Bool :=
  pre.data.isPrefixOf s.data

/-- One left-to-right pass of Python's `str.replace`: every non-overlapping
occurrence of `pat` is replaced by `repl`.  Each step consumes at least one
character, so running with `fuel = s.length` processes the whole input; the
fuel only makes the recursion structural.  (Python's special case of an empty
pattern never arises here: the service only replaces `"Bearer "`.) -/
def pyReplaceAux (pat repl : List Char) : Nat → List Char → List Char
  | 0, s => s
  | _ + 1, [] => []
  | fuel + 1, c :: rest =>
    if pat ≠ [] ∧ pat.isPrefixOf (c :: rest) then
      repl ++ pyReplaceAux pat repl fuel ((c :: rest).drop pat.length)
    else
      c :: pyReplaceAux pat repl fuel rest

/-- `s.replace(pat, repl)`. -/
def pyReplace (s pat repl : String) : String :=
  String.mk (pyReplaceAux pat.data repl.data s.data.length s.data)

/-! ## Errors and API-key verification (app.py lines 58-66) -/

/-- The error responses the service can produce: `HTTPException(401, ...)`,
`HTTPException(404, ...)`, `HTTPException(500, ...)`, and FastAPI's 422
request-validation error (raised when a required header or body field is
missing or ill-typed). -/
inductive ApiError where
  | unauthorized (detail : String)
  | notFound (detail : String)
  | serverError (detail : String)
  | validationError
deriving Repr, DecidableEq

/-- `verify_api_key` (app.py lines 58-66), parameterised by the configured
`API_KEY`.  Note `authorization.replace("Bearer ", "")` deletes every
occurrence of the substring `"Bearer "`, not just a leading prefix. -/
def verify_api_key (apiKey authorization : String) : Except ApiError String :=
  if !(pyStartsWith authorization "Bearer ") then
    .error (.unauthorized "Invalid authorization header format")
  else
    let token := pyReplace authorization "Bearer " ""
    if token ≠ apiKey then .error (.unauthorized "Invalid API key")
    else .ok token

/-! ## Filesystem paths

`os.path.join(PDF_STORAGE_DIR, filename)` followed by what the OS does with
the resulting relative path: split on `/` and resolve `.`/`..`/empty
segments.  Paths are relative to the process working directory, modelled as
the root of the segment-list space.  (The corner of `os.path.join` where the
second argument is absolute is not modelled; every path the service joins
starts with a literal component.) -/

def PDF_STORAGE_DIR : String := "generated_pdfs"

/-- Split a character list into `/`-separated segments, accumulating the
current segment in reverse. -/
def splitSegsAux : List Char → List Char → List String
  | cur, [] => [String.mk cur.reverse]
  | cur, c :: rest =>
    if c = '/' then String.mk cur.reverse :: splitSegsAux [] rest
    else splitSegsAux (c :: cur) rest

/-- Split a path string on `/`. -/
def splitSegs (s : String) : List String :=
  splitSegsAux [] s.data

/-- One step of path resolution: empty and `.` segments vanish, `..` pops the
last resolved segment, anything else is appended. -/
def resolveComp (acc : List String) (seg : String) : List String :=
  if seg = "" ∨ seg = "." then acc
  else if seg = ".." then acc.dropLast
  else acc ++ [seg]

/-- Resolve a segment list to the canonical path the OS accesses. -/
def resolvePath (segs : List String) : List String :=
  segs.foldl resolveComp []

/-- `os.path.join(dir, f)` for the relative, non-slash-terminated directory
the service uses. -/
def osJoin (dir f : String) : String := dir ++ "/" ++ f

/-- The canonical filesystem key the service reads or writes for a given
`filename`: `os.path.join(PDF_STORAGE_DIR, filename)`, resolved. -/
def storageKey (filename : String) : List String :=
  resolvePath (splitSegs (osJoin PDF_STORAGE_DIR filename))

/-- Whether a resolved path lies inside the blob store directory. -/
def insideStore : List String → Bool
  | seg :: _ => seg = PDF_STORAGE_DIR
  | [] => false

/-- The directories present in a deployment: the working directory and the
store created by `os.makedirs(PDF_STORAGE_DIR, exist_ok=True)` at startup
(app.py line 38).  The service itself never creates any other directory —
`open()` does not create intermediate directories and the store is populated
only with the plain files the service writes — so these are the only
directories on any path the service opens. -/
def deployDirs : List (List String) := [[], [PDF_STORAGE_DIR]]

/-- The kernel's component-by-component walk performed when a path is opened
for writing: every component before the final one must step into an existing
directory (`..` steps to the parent of an existing directory, empty and `.`
components vanish), else `open()` raises `FileNotFoundError`/`NotADirectoryError`;
the final component is the file to create or truncate, whose parent must
exist.  Every path the service opens has a plain (non-dot, non-empty) final
component. -/
def walkCheck (cur : List String) : List String → Bool
  | [] => false
  | [_] => decide (cur ∈ deployDirs)
  | seg :: rest =>
    if seg = "" ∨ seg = "." then walkCheck cur rest
    else if seg = ".." then walkCheck cur.dropLast rest
    else if (cur ++ [seg]) ∈ deployDirs then walkCheck (cur ++ [seg]) rest
    else false

/-- Whether `open(path, "wb")` succeeds in a deployment.  When it does, the
walk coincides with the lexical resolution of the path, because every
intermediate directory it relied on exists. -/
def openWriteOk (path : String) : Bool :=
  walkCheck [] (splitSegs path)

/-! ## Document elements (`create_affidavit_pdf`, app.py lines 183-327)

The flowable list the function hands to `doc.build`.  Visual styling
(colors, fonts, paddings of the two `TableStyle`s and the paragraph styles)
is presentational and not modelled; the style name records which style a
paragraph uses.  Distances are in points (`inch = 72`). -/

def inchQ : ℚ := 72

inductive Element where
  | spacer (w h : ℚ)
  | paragraph (text : String) (style : String)
  | table (rows : List (String × String)) (colWidths : List ℚ)
deriving Repr, DecidableEq

/-- `transaction_data` (app.py lines 248-257): the rows of the transaction
detail table, with a `Notes` row appended exactly when `data.notes` is truthy
(present and non-empty). -/
def transaction_data (data : AffidavitRequest) : List (String × String) :=
  [("Transaction ID", "#" ++ data.transactionId),
   ("Date", strftimeLongUTC data.date),
   ("Sender", data.sender),
   ("Receiver", data.receiver),
   ("Amount", data.amount ++ " " ++ data.currency)] ++
  (match data.notes with
   | some n => if n ≠ "" then [("Notes", n)] else []
   | none => [])

/-- `uuid.uuid4().hex[:12].upper()` applied to the hex string drawn from the
random source (app.py line 301). -/
def securityHash (uuidHex : String) : String :=
  String.mk ((uuidHex.data.take 12).map Char.toUpper)

/-- `verification_data` (app.py lines 299-303). -/
def verification_data (uuidHex : String) : List (String × String) :=
  [("Verification Status:", "VERIFIED"),
   ("Security Hash:", securityHash uuidHex),
   ("Platform:", "VAULT Financial")]

/-- The flowable list built by `create_affidavit_pdf` (app.py lines 228-324),
in source order.  `now` is the value `datetime.now()` returns in the
digital-verification sentence and `uuidHex` the hex of the `uuid4` drawn for
the security hash. -/
def create_affidavit_elements (data : AffidavitRequest) (now : DateTimeV)
    (uuidHex : String) : List Element :=
  [Element.spacer 1 (1/4 * inchQ),
   Element.paragraph "TRANSACTION AFFIDAVIT" "VaultTitle",
   Element.spacer 1 (1/4 * inchQ),
   Element.paragraph
     ("This document certifies that a transaction has been securely recorded on the " ++
      "VAULT Financial platform with the following details:") "VaultNormal",
   Element.spacer 1 (1/4 * inchQ),
   Element.table (transaction_data data) [2 * inchQ, 7/2 * inchQ],
   Element.spacer 1 (2/5 * inchQ),
   Element.paragraph
     ("This affidavit certifies that the above transaction has been securely recorded in the VAULT " ++
      "system. This document serves as an official record of the transaction.") "VaultNormal",
   Element.spacer 1 (1/5 * inchQ),
   Element.paragraph
     ("Digitally verified and generated on " ++ strftimeLong now ++ ".") "VaultNormal",
   Element.spacer 1 (3/10 * inchQ),
   Element.table (verification_data uuidHex) [2 * inchQ, 7/2 * inchQ]]

/-! ## The blob store

A flat association list from resolved path keys to blobs; a write prepends,
so a later write to the same key shadows (overwrites) the earlier one, and
lookup returns the most recent value. -/

/-- A stored value: either a rendered affidavit (identified with its flowable
list) or some other pre-existing file's raw content. -/
inductive Blob where
  | pdf (doc : List Element)
  | raw (content : String)
deriving Repr, DecidableEq

abbrev FileSystem := List (List String × Blob)

def fsLookup (fs : FileSystem) (k : List String) : Option Blob :=
  match fs with
  | [] => none
  | (k', v) :: rest => if k' = k then some v else fsLookup rest k

def fsWrite (fs : FileSystem) (k : List String) (v : Blob) : FileSystem :=
  (k, v) :: fs

/-! ## Endpoints (app.py lines 77-112) -/

/-- The response model (app.py lines 69-71). -/
structure AffidavitResponse where
  pdfUrl : String
  filename : String
deriving Repr, DecidableEq

/-- The filename generated at app.py line 84, with the `uuid4().hex[:8]`
suffix as an explicit input. -/
def generatedFilename (transactionId suffix : String) : String :=
  "VAULT_Affidavit_" ++ transactionId ++ "_" ++ suffix ++ ".pdf"

/-- The `POST /generate-affidavit` endpoint (app.py lines 77-96).
`auth` is the `Authorization` header (`none` when absent: FastAPI then
rejects the request with a 422 validation error, as it does for a missing
required body field); `suffix` is the `uuid4().hex[:8]` drawn for the
filename, `uuidHex` the `uuid4().hex` drawn for the security hash and `now`
the generation clock reading.  Returns the response or error, and the
filesystem after the call.  The FastAPI dependency runs before the handler,
so an authorization failure happens before any PDF composition or storage
write.  The handler's `try`/`except` (line 95) converts any exception into
an `HTTPException(500, "PDF generation failed: ...")` with nothing written:
in particular, when the write path's intermediate directory does not exist,
ReportLab's `open(filepath, "wb")` raises and the store is untouched (the
wrapped OS error text appended to the 500 detail is abstracted away). -/
def generate_affidavit (apiKey : String) (auth : Option String)
    (raw : RawRequest) (suffix uuidHex : String) (now : DateTimeV)
    (fs : FileSystem) : Except ApiError AffidavitResponse × FileSystem :=
  match auth with
  | none => (.error .validationError, fs)
  | some a =>
    match verify_api_key apiKey a with
    | .error e => (.error e, fs)
    | .ok _ =>
      match validateRequest raw with
      | none => (.error .validationError, fs)
      | some data =>
        let filename := generatedFilename data.transactionId suffix
        let filepath := osJoin PDF_STORAGE_DIR filename
        if openWriteOk filepath then
          let doc := create_affidavit_elements data now uuidHex
          let fs' := fsWrite fs (resolvePath (splitSegs filepath)) (.pdf doc)
          (.ok ⟨"/download-affidavit/" ++ filename, filename⟩, fs')
        else
          (.error (.serverError "PDF generation failed"), fs)

/-- The `GET /download-affidavit/{filename}` endpoint (app.py lines 98-112).
On success the `FileResponse` is modelled as the blob at the joined path
together with the suggested download name. -/
def download_affidavit (apiKey : String) (auth : Option String)
    (filename : String) (fs : FileSystem) : Except ApiError (Blob × String) :=
  match auth with
  | none => .error .validationError
  | some a =>
    match verify_api_key apiKey a with
    | .error e => .error e
    | .ok _ =>
      let filepath := osJoin PDF_STORAGE_DIR filename
      match fsLookup fs (resolvePath (splitSegs filepath)) with
      | none => .error (.notFound "PDF not found")
      | some blob => .ok (blob, filename)

/-! ## Canvas model and the page decorator (`add_page_elements`, app.py lines 115-181)

The ReportLab canvas, as the decorator uses it: a current graphics state
(fill color, stroke color, font, line width, current transform), a stack of
saved graphics states (`saveState`/`restoreState`), and the list of drawing
commands emitted so far (the page output). -/

inductive ColorV where
  | vaultGreen
  | vaultLightGreen
  | vaultBlack
  | vaultWhite
  | vaultGray
deriving Repr, DecidableEq

/-- A transform applied to the current transformation matrix. -/
inductive TransformOp where
  | translateT (x y : ℚ)
  | rotateT (degrees : ℚ)
deriving Repr, DecidableEq

/-- A drawing command emitted onto the page (recorded an element of the page
output together with the graphics state under which it was drawn is not
needed by any claim, so only the command is recorded). -/
inductive DrawCmd where
  | rectC (x y w h : ℚ) (fill stroke : Bool)
  | drawStringC (x y : ℚ) (text : String)
  | drawCentredStringC (x y : ℚ) (text : String)
deriving Repr, DecidableEq

inductive CanvasOp where
  | saveState
  | restoreState
  | setFillColor (c : ColorV)
  | setStrokeColor (c : ColorV)
  | setFont (name : String) (size : ℚ)
  | setLineWidth (w : ℚ)
  | translate (x y : ℚ)
  | rotate (degrees : ℚ)
  | rect (x y w h : ℚ) (fill stroke : Bool)
  | drawString (x y : ℚ) (text : String)
  | drawCentredString (x y : ℚ) (text : String)
deriving Repr, DecidableEq

/-- The mutable graphics state that `saveState` snapshots and `restoreState`
restores. -/
structure GState where
  fill : ColorV
  stroke : ColorV
  fontName : String
  fontSize : ℚ
  lineWidth : ℚ
  ctm : List TransformOp
deriving Repr, DecidableEq

/-- The whole canvas: current graphics state, the save stack, and the page
output.  `drawn` is not part of the restorable state. -/
structure CanvasState where
  g : GState
  saved : List GState
  drawn : List DrawCmd
deriving Repr, DecidableEq

def execOp (s : CanvasState) : CanvasOp → CanvasState
  | .saveState => { s with saved := s.g :: s.saved }
  | .restoreState =>
    match s.saved with
    | [] => s
    | g' :: rest => { s with g := g', saved := rest }
  | .setFillColor c => { s with g := { s.g with fill := c } }
  | .setStrokeColor c => { s with g := { s.g with stroke := c } }
  | .setFont n sz => { s with g := { s.g with fontName := n, fontSize := sz } }
  | .setLineWidth w => { s with g := { s.g with lineWidth := w } }
  | .translate x y => { s with g := { s.g with ctm := s.g.ctm ++ [.translateT x y] } }
  | .rotate d => { s with g := { s.g with ctm := s.g.ctm ++ [.rotateT d] } }
  | .rect x y w h f st => { s with drawn := s.drawn ++ [.rectC x y w h f st] }
  | .drawString x y t => { s with drawn := s.drawn ++ [.drawStringC x y t] }
  | .drawCentredString x y t => { s with drawn := s.drawn ++ [.drawCentredStringC x y t] }

def execOps (s : CanvasState) (ops : List CanvasOp) : CanvasState :=
  ops.foldl execOp s

/-- The geometry of the `SimpleDocTemplate` as ReportLab exposes it to the
page callback: margins as configured (app.py lines 188-195) and
`width`/`height` the content-box dimensions. -/
structure DocTemplateV where
  width : ℚ
  height : ℚ
  leftMargin : ℚ
  rightMargin : ℚ
  topMargin : ℚ
  bottomMargin : ℚ
deriving Repr, DecidableEq

/-- The document geometry the service builds: letter paper (612 x 792 pt),
margins 72/72/90/72, so `width = 612 - 144` and `height = 792 - 162`. -/
def affidavitDoc : DocTemplateV :=
  ⟨612 - 144, 792 - 162, 72, 72, 90, 72⟩

/-- `add_page_elements` (app.py lines 115-181) as the exact sequence of
canvas calls it makes, in source order.  `now` is the `datetime.now()`
reading interpolated into the footer text.  The function body is straight-line
code with no exception handler: an exception raised by any call exits the
function after the preceding calls have already mutated the canvas. -/
def add_page_elements (now : DateTimeV) (doc : DocTemplateV) : List CanvasOp :=
  [CanvasOp.saveState,
   CanvasOp.setFillColor .vaultGreen,
   CanvasOp.rect 0 (doc.height + doc.topMargin - 1/2 * inchQ)
     (doc.width + doc.leftMargin + doc.rightMargin) (1/2 * inchQ) true false,
   CanvasOp.setFillColor .vaultWhite,
   CanvasOp.setFont "Helvetica-Bold" 16,
   CanvasOp.drawString doc.leftMargin (doc.height + doc.topMargin - 3/10 * inchQ) "VAULT",
   CanvasOp.setFont "Helvetica-Bold" 80,
   CanvasOp.setFillColor .vaultLightGreen,
   CanvasOp.saveState,
   CanvasOp.translate (doc.width / 2 + doc.leftMargin) (doc.height / 2),
   CanvasOp.rotate 45,
   CanvasOp.drawCentredString 0 0 "VAULT",
   CanvasOp.restoreState,
   CanvasOp.setFillColor .vaultGreen,
   CanvasOp.rect 0 (doc.bottomMargin - 2/5 * inchQ)
     (doc.width + doc.leftMargin + doc.rightMargin) (3/10 * inchQ) true false,
   CanvasOp.setFillColor .vaultWhite,
   CanvasOp.setFont "Helvetica" 8,
   CanvasOp.drawCentredString (doc.width / 2 + doc.leftMargin) (doc.bottomMargin - 1/4 * inchQ)
     ("VAULT Financial | Transaction Record | Generated on " ++ strftimeNumeric now),
   CanvasOp.setStrokeColor .vaultGreen,
   CanvasOp.setLineWidth (1/2),
   CanvasOp.rect (doc.leftMargin - 10) (doc.bottomMargin - 1/2 * inchQ)
     (doc.width + 20) (doc.height + doc.topMargin + 1/2 * inchQ) false true,
   CanvasOp.restoreState]

/-! ## Calendar arithmetic (spec-side UTC conversion)

Modelled from the spec: "date (timestamp, must include timezone or be treated
as UTC)" together with the displayed time being "the instant's actual UTC
time" requires converting an offset-carrying datetime to UTC.  The source
performs no such conversion; these definitions express what the spec asks
for, to be compared with the source's formatting.  Standard proleptic
Gregorian day-numbering algorithms. -/

/-- Days from civil date to the 1970-01-01 epoch (proleptic Gregorian). -/
def daysFromCivil (y : Int) (m d : Nat) : Int :=
  let y' : Int := y - (if m ≤ 2 then 1 else 0)
  let era : Int := Int.ediv y' 400
  let yoe : Nat := (y' - era * 400).toNat
  let mp : Nat := if m > 2 then m - 3 else m + 9
  let doy : Nat := (153 * mp + 2) / 5 + d - 1
  let doe : Nat := yoe * 365 + yoe / 4 - yoe / 100 + doy
  era * 146097 + Int.ofNat doe - 719468

/-- Civil date from days since the 1970-01-01 epoch. -/
def civilFromDays (z : Int) : Int × Nat × Nat :=
  let z' : Int := z + 719468
  let era : Int := Int.ediv z' 146097
  let doe : Nat := (z' - era * 146097).toNat
  let yoe : Nat := (doe - doe / 1460 + doe / 36524 - doe / 146096) / 365
  let doy : Nat := doe - (365 * yoe + yoe / 4 - yoe / 100)
  let mp : Nat := (5 * doy + 2) / 153
  let d : Nat := doy - (153 * mp + 2) / 5 + 1
  let m : Nat := if mp < 10 then mp + 3 else mp - 9
  (Int.ofNat yoe + era * 400 + (if m ≤ 2 then 1 else 0), m, d)

/-- Modelled from the spec: convert an offset-carrying datetime to the UTC
instant it denotes (a naive datetime is treated as already being UTC).  This
is the conversion the spec's reading of the Date row requires; `app.py` never
performs it. -/
def specToUTC (dt : DateTimeV) : DateTimeV :=
  match dt.tzOffsetMinutes with
  | none => dt
  | some off =>
    let total : Int :=
      daysFromCivil (Int.ofNat dt.year) dt.month dt.day * 86400 +
        Int.ofNat (dt.hour * 3600 + dt.minute * 60 + dt.second) - off * 60
    let days : Int := Int.ediv total 86400
    let secs : Nat := (total - days * 86400).toNat
    let c := civilFromDays days
    ⟨c.1.toNat, c.2.1, c.2.2, secs / 3600, secs % 3600 / 60, secs % 60, some 0⟩

/-! ## Hexadecimal characters -/

/-- The characters of a Python `uuid4().hex` string. -/
def lowerHexChars : List Char := "0123456789abcdef".data

def isLowerHexChar (c : Char) : Bool := lowerHexChars.contains c

def upperHexChars : List Char := "0123456789ABCDEF".data

def isUpperHexChar (c : Char) : Bool := upperHexChars.contains c

/-- What `uuid.uuid4().hex` always returns: 32 lowercase hex characters. -/
def isUuidHex (s : String) : Prop :=
  s.data.length = 32 ∧ ∀ c ∈ s.data, isLowerHexChar c = true

instance (s : String) : Decidable (isUuidHex s) := by
  unfold isUuidHex; infer_instance

/-- What `uuid.uuid4().hex[:8]` always returns: 8 lowercase hex characters. -/
def isHex8 (s : String) : Prop :=
  s.data.length = 8 ∧ ∀ c ∈ s.data, isLowerHexChar c = true

instance (s : String) : Decidable (isHex8 s) := by
  unfold isHex8; infer_instance

/-! ## Shared concrete sample inputs (used by witnesses and counterexamples) -/

/-- The spec's end-to-end scenario date, `2024-01-15T10:30:00Z` parsed by
pydantic (offset 0). -/
def sampleDate : DateTimeV := ⟨2024, 1, 15, 10, 30, 0, some 0⟩

/-- A concrete generation-clock reading. -/
def sampleNow : DateTimeV := ⟨2024, 3, 1, 12, 0, 0, none⟩

/-- A concrete `uuid4().hex` value. -/
def sampleUuid : String := "0123456789abcdef0123456789abcdef"

/-- The spec's end-to-end scenario request body. -/
def sampleRaw : RawRequest :=
  ⟨some "Alice", some "Bob", some "100.5", some "USD", some sampleDate, some "TX123", none⟩

/-- The record `sampleRaw` validates to. -/
def sampleReq : AffidavitRequest :=
  ⟨"Alice", "Bob", "100.5", "USD", sampleDate, "TX123", none⟩

/-! ## Helper lemmas -/

theorem fsLookup_write_same (fs : FileSystem) (k : List String) (v : Blob) :
    fsLookup (fsWrite fs k v) k = some v := by
  simp [fsWrite, fsLookup]

theorem fsLookup_write_other (fs : FileSystem) (k k' : List String) (v : Blob)
    (h : k ≠ k') : fsLookup (fsWrite fs k v) k' = fsLookup fs k' := by
  simp [fsWrite, fsLookup, h]

theorem splitSegsAux_no_slash (cs : List Char) (h : ∀ c ∈ cs, c ≠ '/') :
    ∀ cur : List Char, splitSegsAux cur cs = [String.mk (cur.reverse ++ cs)] := by
  induction cs with
  | nil => intro cur; simp [splitSegsAux]
  | cons c rest ih =>
    intro cur
    have hc : c ≠ '/' := h c (by simp)
    rw [splitSegsAux, if_neg hc, ih (fun x hx => h x (by simp [hx]))]
    simp

theorem splitSegsAux_through_slash (pre : List Char) (hpre : ∀ c ∈ pre, c ≠ '/') :
    ∀ (rest cur : List Char),
      splitSegsAux cur (pre ++ '/' :: rest) =
        String.mk (cur.reverse ++ pre) :: splitSegsAux [] rest := by
  induction pre with
  | nil => intro rest cur; simp [splitSegsAux]
  | cons c p ih =>
    intro rest cur
    have hc : c ≠ '/' := hpre c (by simp)
    rw [List.cons_append, splitSegsAux, if_neg hc,
      ih (fun x hx => hpre x (by simp [hx])) rest (c :: cur)]
    simp

theorem splitSegs_join (f : String) (h : ∀ c ∈ f.data, c ≠ '/') :
    splitSegs (osJoin PDF_STORAGE_DIR f) = [PDF_STORAGE_DIR, f] := by
  have hdata : (osJoin PDF_STORAGE_DIR f).data =
      PDF_STORAGE_DIR.data ++ '/' :: f.data := by
    show (PDF_STORAGE_DIR ++ "/" ++ f).data = _
    rw [String.data_append, String.data_append]
    simp [PDF_STORAGE_DIR]
  have hpre : ∀ c ∈ PDF_STORAGE_DIR.data, c ≠ '/' := by decide
  rw [splitSegs, hdata, splitSegsAux_through_slash PDF_STORAGE_DIR.data hpre f.data []]
  rw [splitSegsAux_no_slash f.data h []]
  simp

theorem storageKey_sep_free (f : String) (h : ∀ c ∈ f.data, c ≠ '/')
    (h0 : f ≠ "") (h1 : f ≠ ".") (h2 : f ≠ "..") :
    storageKey f = [PDF_STORAGE_DIR, f] := by
  have e1 : resolveComp ([] : List String) PDF_STORAGE_DIR = [PDF_STORAGE_DIR] := by decide
  have e2 : resolveComp [PDF_STORAGE_DIR] f = [PDF_STORAGE_DIR, f] := by
    rw [resolveComp, if_neg (by push_neg; exact ⟨h0, h1⟩), if_neg h2]
    rfl
  rw [storageKey, splitSegs_join f h, resolvePath]
  simp only [List.foldl_cons, List.foldl_nil]
  rw [e1, e2]

theorem splitSegs_osJoin (f : String) :
    splitSegs (osJoin PDF_STORAGE_DIR f) = PDF_STORAGE_DIR :: splitSegs f := by
  have hdata : (osJoin PDF_STORAGE_DIR f).data =
      PDF_STORAGE_DIR.data ++ '/' :: f.data := by
    show (PDF_STORAGE_DIR ++ "/" ++ f).data = _
    rw [String.data_append, String.data_append]
    simp [PDF_STORAGE_DIR]
  rw [splitSegs, hdata,
    splitSegsAux_through_slash PDF_STORAGE_DIR.data (by decide) f.data []]
  rfl

theorem splitSegsAux_ne_nil : ∀ (cs cur : List Char), splitSegsAux cur cs ≠ [] := by
  intro cs
  induction cs with
  | nil => intro cur; simp [splitSegsAux]
  | cons c rest ih =>
    intro cur
    rw [splitSegsAux]
    by_cases hc : c = '/'
    · simp [hc]
    · rw [if_neg hc]
      exact ih (c :: cur)

theorem takeWhile_append_of_all (p : Char → Bool) (l₁ l₂ : List Char)
    (h : ∀ x ∈ l₁, p x = true) :
    (l₁ ++ l₂).takeWhile p = l₁ ++ l₂.takeWhile p := by
  induction l₁ with
  | nil => simp
  | cons c rest ih =>
    rw [List.cons_append, List.takeWhile_cons, h c (by simp),
      ih (fun x hx => h x (by simp [hx]))]
    rfl

theorem splitSegsAux_slash_head :
    ∀ (cs : List Char), '/' ∈ cs → ∀ cur : List Char, ∃ tail,
      splitSegsAux cur cs =
        String.mk (cur.reverse ++ cs.takeWhile (fun ch => ch != '/')) :: tail ∧
      tail ≠ [] := by
  intro cs
  induction cs with
  | nil => intro h; exact absurd h (by simp)
  | cons c rest ih =>
    intro h cur
    by_cases hc : c = '/'
    · subst hc
      refine ⟨splitSegsAux [] rest, ?_, splitSegsAux_ne_nil rest []⟩
      rw [splitSegsAux, if_pos rfl]
      simp [List.takeWhile_cons]
    · have hrest : '/' ∈ rest := by
        rcases List.mem_cons.mp h with h' | h'
        · exact absurd h'.symm hc
        · exact h'
      obtain ⟨tail, htail, hne⟩ := ih hrest (c :: cur)
      refine ⟨tail, ?_, hne⟩
      rw [splitSegsAux, if_neg hc, htail]
      have hp : (c != '/') = true := by simpa using hc
      simp [List.takeWhile_cons, hp, List.append_assoc]

/-- A string of at least 3 characters is none of `""`, `"."`, `".."`. -/
theorem ne_short_names (s : String) (h : 3 ≤ s.data.length) :
    s ≠ "" ∧ s ≠ "." ∧ s ≠ ".." := by
  refine ⟨?_, ?_, ?_⟩ <;>
    · intro hEq
      rw [hEq] at h
      exact absurd h (by decide)

theorem openWriteOk_store (f : String) (h : ∀ c ∈ f.data, c ≠ '/') :
    openWriteOk (osJoin PDF_STORAGE_DIR f) = true := by
  rw [openWriteOk, splitSegs_join f h]
  rfl

theorem walkCheck_store_stops (s₁ t : String) (ts : List String)
    (h0 : ¬(s₁ = "" ∨ s₁ = ".")) (h1 : s₁ ≠ "..") :
    walkCheck [PDF_STORAGE_DIR] (s₁ :: t :: ts) = false := by
  have hmem : ¬(([PDF_STORAGE_DIR] ++ [s₁]) ∈ deployDirs) := by
    intro hm
    rw [deployDirs] at hm
    rcases List.mem_cons.mp hm with h' | h'
    · exact List.noConfusion h'
    · have := congrArg List.length (List.mem_singleton.mp h')
      exact absurd this (by simp)
  show (if (s₁ = "" ∨ s₁ = ".") then walkCheck [PDF_STORAGE_DIR] (t :: ts)
    else if s₁ = ".." then walkCheck ([PDF_STORAGE_DIR].dropLast) (t :: ts)
    else if ([PDF_STORAGE_DIR] ++ [s₁]) ∈ deployDirs then
      walkCheck ([PDF_STORAGE_DIR] ++ [s₁]) (t :: ts)
    else false) = false
  rw [if_neg h0, if_neg h1, if_neg hmem]

theorem lowerHex_ne_slash (c : Char) (h : isLowerHexChar c = true) : c ≠ '/' := by
  intro hc
  subst hc
  exact absurd h (by decide)

theorem lowerHex_toUpper (c : Char) (h : isLowerHexChar c = true) :
    isUpperHexChar c.toUpper = true := by
  have hc : c ∈ lowerHexChars := by simpa [isLowerHexChar] using h
  fin_cases hc <;> decide

/-- The character list of a generated filename, split into its parts. -/
theorem generatedFilename_data (tid suffix : String) :
    (generatedFilename tid suffix).data =
      "VAULT_Affidavit_".data ++ tid.data ++ "_".data ++ suffix.data ++ ".pdf".data := by
  rw [generatedFilename, String.data_append, String.data_append,
    String.data_append, String.data_append]

theorem generatedFilename_no_slash (tid suffix : String)
    (htid : ∀ c ∈ tid.data, c ≠ '/')
    (hsuf : ∀ c ∈ suffix.data, isLowerHexChar c = true) :
    ∀ c ∈ (generatedFilename tid suffix).data, c ≠ '/' := by
  intro c hc
  rw [generatedFilename_data] at hc
  simp only [List.mem_append] at hc
  rcases hc with ((((hc | hc) | hc) | hc) | hc)
  · revert hc; revert c; decide
  · exact htid c hc
  · revert hc; revert c; decide
  · exact lowerHex_ne_slash c (hsuf c hc)
  · revert hc; revert c; decide

theorem generatedFilename_length (tid suffix : String) :
    (generatedFilename tid suffix).data.length =
      21 + tid.data.length + suffix.data.length := by
  rw [generatedFilename_data]
  simp only [List.length_append, List.length_cons, List.length_nil]
  omega

theorem generatedFilename_ne_empty (tid suffix : String) :
    generatedFilename tid suffix ≠ "" := by
  intro hEq
  have hl : (generatedFilename tid suffix).data.length = ("" : String).data.length :=
    congrArg List.length (congrArg String.data hEq)
  rw [generatedFilename_length] at hl
  have h0 : ("" : String).data.length = 0 := rfl
  omega

theorem generatedFilename_ne_dot (tid suffix : String) :
    generatedFilename tid suffix ≠ "." := by
  intro hEq
  have hl : (generatedFilename tid suffix).data.length = ("." : String).data.length :=
    congrArg List.length (congrArg String.data hEq)
  rw [generatedFilename_length] at hl
  have h0 : ("." : String).data.length = 1 := rfl
  omega

theorem generatedFilename_ne_dotdot (tid suffix : String) :
    generatedFilename tid suffix ≠ ".." := by
  intro hEq
  have hl : (generatedFilename tid suffix).data.length = (".." : String).data.length :=
    congrArg List.length (congrArg String.data hEq)
  rw [generatedFilename_length] at hl
  have h0 : (".." : String).data.length = 2 := rfl
  omega

theorem generatedFilename_inj_suffix (tid s1 s2 : String)
    (h : generatedFilename tid s1 = generatedFilename tid s2) : s1 = s2 := by
  have hd := congrArg String.data h
  rw [generatedFilename_data, generatedFilename_data] at hd
  have h1 : s1.data ++ ".pdf".data = s2.data ++ ".pdf".data := by
    have := hd
    simp only [List.append_assoc] at this
    exact List.append_cancel_left (List.append_cancel_left (List.append_cancel_left this))
  exact String.ext (List.append_cancel_right h1)

/-- A transactionId containing a path separator makes the artifact write
fail: the first component of the walk below the store is
`VAULT_Affidavit_<...>`, a directory that never exists. -/
theorem openWriteOk_slash (tid suffix : String) (h : '/' ∈ tid.data) :
    openWriteOk (osJoin PDF_STORAGE_DIR (generatedFilename tid suffix)) = false := by
  have hf : '/' ∈ (generatedFilename tid suffix).data := by
    rw [generatedFilename_data]
    simp [h]
  obtain ⟨tail, htail, hne⟩ := splitSegsAux_slash_head _ hf []
  obtain ⟨t, ts, rfl⟩ := List.exists_cons_of_ne_nil hne
  have hsplit : splitSegs (generatedFilename tid suffix) =
      String.mk (((generatedFilename tid suffix).data).takeWhile (fun ch => ch != '/')) ::
        t :: ts := by
    rw [splitSegs, htail]
    rfl
  have hlen : 3 ≤ (String.mk
      (((generatedFilename tid suffix).data).takeWhile (fun ch => ch != '/'))).data.length := by
    show 3 ≤ (((generatedFilename tid suffix).data).takeWhile (fun ch => ch != '/')).length
    rw [generatedFilename_data]
    simp only [List.append_assoc]
    rw [takeWhile_append_of_all _ _ _ (by decide)]
    simp
  obtain ⟨hs0, hs1, hs2⟩ := ne_short_names _ hlen
  rw [openWriteOk, splitSegs_osJoin, hsplit]
  have hstep : walkCheck []
      (PDF_STORAGE_DIR ::
        String.mk (((generatedFilename tid suffix).data).takeWhile (fun ch => ch != '/')) ::
        t :: ts) =
      walkCheck [PDF_STORAGE_DIR]
        (String.mk (((generatedFilename tid suffix).data).takeWhile (fun ch => ch != '/')) ::
          t :: ts) := by
    show (if (PDF_STORAGE_DIR = "" ∨ PDF_STORAGE_DIR = ".") then _
      else if PDF_STORAGE_DIR = ".." then _
      else if (([] : List String) ++ [PDF_STORAGE_DIR]) ∈ deployDirs then
        walkCheck (([] : List String) ++ [PDF_STORAGE_DIR]) _
      else false) = _
    rw [if_neg (by decide), if_neg (by decide), if_pos (by decide)]
    rfl
  rw [hstep]
  exact walkCheck_store_stops _ _ _ (by simp [hs0, hs1]) hs2


/-- With a valid credential, a validated record and a separator-free
transactionId and suffix, Generate's write succeeds and lands at the
storage key of the generated filename. -/
theorem generate_ok_of_sep_free (apiKey auth t : String)
    (hv : verify_api_key apiKey auth = .ok t)
    (raw : RawRequest) (req : AffidavitRequest) (hr : validateRequest raw = some req)
    (hsafe : ∀ c ∈ req.transactionId.data, c ≠ '/')
    (suffix uuidHex : String)
    (hsuf : ∀ c ∈ suffix.data, isLowerHexChar c = true)
    (now : DateTimeV) (fs : FileSystem) :
    generate_affidavit apiKey (some auth) raw suffix uuidHex now fs =
      (.ok ⟨"/download-affidavit/" ++ generatedFilename req.transactionId suffix,
            generatedFilename req.transactionId suffix⟩,
       fsWrite fs (storageKey (generatedFilename req.transactionId suffix))
         (.pdf (create_affidavit_elements req now uuidHex))) := by
  have hw : openWriteOk (osJoin PDF_STORAGE_DIR
      (generatedFilename req.transactionId suffix)) = true :=
    openWriteOk_store _ (generatedFilename_no_slash _ _ hsafe hsuf)
  rw [generate_affidavit, hv, hr]
  simp only [hw, if_true]
  rfl

/-- With a valid credential and a validated record whose transactionId
contains a path separator, Generate's write raises, the handler answers 500
and the store is untouched. -/
theorem generate_fail_of_slash (apiKey auth t : String)
    (hv : verify_api_key apiKey auth = .ok t)
    (raw : RawRequest) (req : AffidavitRequest) (hr : validateRequest raw = some req)
    (hslash : '/' ∈ req.transactionId.data)
    (suffix uuidHex : String) (now : DateTimeV) (fs : FileSystem) :
    generate_affidavit apiKey (some auth) raw suffix uuidHex now fs =
      (.error (.serverError "PDF generation failed"), fs) := by
  have hw := openWriteOk_slash req.transactionId suffix hslash
  rw [generate_affidavit, hv, hr]
  simp only [hw, Bool.false_eq_true, if_false]

/-! ## C1: credential checking -/

/-- C1, counterexample.  The claim says a credential is accepted only if it
exactly equals the configured secret and that missing credentials yield an
authorization error.  But `verify_api_key` strips every occurrence of
`"Bearer "`: with secret `"k"`, the header `"Bearer Bearer k"` — whose bearer
credential is `"Bearer k"`, not `"k"` — is accepted, and Generate then
composes and stores a document; and a request with no Authorization header at
all is rejected by FastAPI with a 422 validation error, not an authorization
error. -/
theorem c1_counterexample :
    ("Bearer Bearer k" = "Bearer " ++ "Bearer k" ∧ "Bearer k" ≠ "k") ∧
    verify_api_key "k" "Bearer Bearer k" = .ok "k" ∧
    (generate_affidavit "k" (some "Bearer Bearer k") sampleRaw "aaaaaaaa" sampleUuid
        sampleNow []).1 =
      .ok ⟨"/download-affidavit/VAULT_Affidavit_TX123_aaaaaaaa.pdf",
           "VAULT_Affidavit_TX123_aaaaaaaa.pdf"⟩ ∧
    (generate_affidavit "k" (some "Bearer Bearer k") sampleRaw "aaaaaaaa" sampleUuid
        sampleNow []).2 ≠ ([] : FileSystem) ∧
    generate_affidavit "k" none sampleRaw "aaaaaaaa" sampleUuid sampleNow [] =
      (.error .validationError, []) ∧
    (∀ d, (ApiError.validationError : ApiError) ≠ .unauthorized d) := by
  refine ⟨⟨rfl, by decide⟩, by decide, by decide, by decide, by decide, ?_⟩
  intro d h
  exact ApiError.noConfusion h

/-- C1, amended.  A request whose Authorization header is present is accepted
iff the header starts with `"Bearer "` and deleting every occurrence of the
substring `"Bearer "` from it yields the configured secret (so headers such
as `"Bearer Bearer secret"` are also accepted); every rejection is a 401
authorization error, and a rejected request reaches neither document
composition nor the blob store (the filesystem is returned unchanged).  A
request with no Authorization header is rejected with a 422 validation error,
again touching nothing. -/
theorem c1_amended (apiKey auth : String) (raw : RawRequest)
    (suffix uuidHex : String) (now : DateTimeV) (fs : FileSystem) (fname : String) :
    (∀ t, verify_api_key apiKey auth = .ok t ↔
      (pyStartsWith auth "Bearer " = true ∧ pyReplace auth "Bearer " "" = apiKey ∧
        t = pyReplace auth "Bearer " "")) ∧
    (∀ e, verify_api_key apiKey auth = .error e →
      ((∃ d, e = .unauthorized d) ∧
       generate_affidavit apiKey (some auth) raw suffix uuidHex now fs = (.error e, fs) ∧
       download_affidavit apiKey (some auth) fname fs = .error e)) ∧
    generate_affidavit apiKey none raw suffix uuidHex now fs = (.error .validationError, fs) ∧
    download_affidavit apiKey none fname fs = .error .validationError := by
  refine ⟨?_, ?_, rfl, rfl⟩
  · intro t
    rw [verify_api_key]
    by_cases hs : pyStartsWith auth "Bearer " = true
    · simp only [hs]
      by_cases hk : pyReplace auth "Bearer " "" = apiKey
      · simp [hk, eq_comm]
      · simp [hk, Ne.symm hk]
    · have hs' : pyStartsWith auth "Bearer " = false := by
        cases hpb : pyStartsWith auth "Bearer " with
        | true => exact absurd hpb hs
        | false => rfl
      simp [hs']
  · intro e he
    refine ⟨?_, ?_, ?_⟩
    · rw [verify_api_key] at he
      by_cases hs : pyStartsWith auth "Bearer " = true
      · simp only [hs] at he
        by_cases hk : pyReplace auth "Bearer " "" = apiKey
        · simp [hk] at he
        · simp only [Bool.not_true, Bool.false_eq_true, if_false, if_pos hk] at he
          exact ⟨"Invalid API key", by injection he with h; exact h.symm⟩
      · have hs' : pyStartsWith auth "Bearer " = false := by
          cases hpb : pyStartsWith auth "Bearer " with
          | true => exact absurd hpb hs
          | false => rfl
        simp only [hs', Bool.not_false, if_pos rfl] at he
        exact ⟨"Invalid authorization header format", by injection he with h; exact h.symm⟩
    · rw [generate_affidavit, he]
    · rw [download_affidavit, he]

/-- C1 amended, witness at concrete inputs: with secret `"k"`, the header
`"Bearer x"` is rejected with a 401 and the store is untouched. -/
theorem c1_amended_witness :
    verify_api_key "k" "Bearer x" = .error (.unauthorized "Invalid API key") ∧
    generate_affidavit "k" (some "Bearer x") sampleRaw "aaaaaaaa" sampleUuid sampleNow [] =
      (.error (.unauthorized "Invalid API key"), []) := by
  have h := c1_amended "k" "Bearer x" sampleRaw "aaaaaaaa" sampleUuid sampleNow [] "f.pdf"
  have hv : verify_api_key "k" "Bearer x" = .error (.unauthorized "Invalid API key") := by decide
  exact ⟨hv, (h.2.1 _ hv).2.1⟩

/-! ## C2: transactionId validation and path safety -/

/-- C2, counterexample.  The claim says every validated record has a
non-empty transactionId that is filesystem-path-safe after sanitization, so
the derived filename names a key inside the blob store.  But validation
accepts the empty transactionId (refuting non-emptiness); and it accepts the
unsanitized transactionId `"/../../evil"`, for which the derived filename
names no key at all: the write path's first component below the store
(`VAULT_Affidavit_`) is a directory that never exists, so `open()` raises,
Generate answers 500 and nothing is written anywhere. -/
theorem c2_counterexample :
    (validateRequest ⟨some "Alice", some "Bob", some "100.5", some "USD",
        some sampleDate, some "", none⟩ =
      some ⟨"Alice", "Bob", "100.5", "USD", sampleDate, "", none⟩ ∧
     (⟨"Alice", "Bob", "100.5", "USD", sampleDate, "", none⟩ :
        AffidavitRequest).transactionId = "") ∧
    (validateRequest ⟨some "Alice", some "Bob", some "100.5", some "USD",
        some sampleDate, some "/../../evil", none⟩ =
      some ⟨"Alice", "Bob", "100.5", "USD", sampleDate, "/../../evil", none⟩ ∧
     openWriteOk (osJoin PDF_STORAGE_DIR (generatedFilename "/../../evil" "aaaaaaaa")) =
       false ∧
     generate_affidavit "k" (some "Bearer k")
         ⟨some "Alice", some "Bob", some "100.5", some "USD", some sampleDate,
          some "/../../evil", none⟩ "aaaaaaaa" sampleUuid sampleNow [] =
       (.error (.serverError "PDF generation failed"), [])) := by
  refine ⟨⟨by decide, rfl⟩, by decide, by decide, by decide⟩

/-- C2, amended.  Validation checks only that the fields are present and
well-typed: every string is accepted as transactionId — the empty string and
strings containing path separators included — and no sanitization exists.
The filename embeds the transactionId verbatim.  For a separator-free
transactionId the write lands at a key inside the blob store; for a
transactionId containing a path separator the write path's intermediate
directory does not exist, `open()` raises, and Generate returns a 500 with
nothing written — so no artifact is ever stored outside the store, but
through failure of such requests, not through sanitization. -/
theorem c2_amended (apiKey auth t : String)
    (hv : verify_api_key apiKey auth = .ok t)
    (s rc a c : String) (d : DateTimeV) (tid : String) (n : Option String)
    (suffix uuidHex : String) (hhex : isHex8 suffix)
    (now : DateTimeV) (fs : FileSystem) :
    validateRequest ⟨some s, some rc, some a, some c, some d, some tid, n⟩ =
      some ⟨s, rc, a, c, d, tid, n⟩ ∧
    ((∀ ch ∈ tid.data, ch ≠ '/') →
      generate_affidavit apiKey (some auth)
          ⟨some s, some rc, some a, some c, some d, some tid, n⟩ suffix uuidHex now fs =
        (.ok ⟨"/download-affidavit/" ++ generatedFilename tid suffix,
              generatedFilename tid suffix⟩,
         fsWrite fs (storageKey (generatedFilename tid suffix))
           (.pdf (create_affidavit_elements ⟨s, rc, a, c, d, tid, n⟩ now uuidHex))) ∧
      insideStore (storageKey (generatedFilename tid suffix)) = true) ∧
    ('/' ∈ tid.data →
      generate_affidavit apiKey (some auth)
          ⟨some s, some rc, some a, some c, some d, some tid, n⟩ suffix uuidHex now fs =
        (.error (.serverError "PDF generation failed"), fs)) := by
  refine ⟨rfl, ?_, ?_⟩
  · intro hsafe
    have hk : storageKey (generatedFilename tid suffix) =
        [PDF_STORAGE_DIR, generatedFilename tid suffix] :=
      storageKey_sep_free _
        (generatedFilename_no_slash _ _ hsafe (fun ch hc => hhex.2 ch hc))
        (generatedFilename_ne_empty _ _) (generatedFilename_ne_dot _ _)
        (generatedFilename_ne_dotdot _ _)
    refine ⟨generate_ok_of_sep_free apiKey auth t hv
      ⟨some s, some rc, some a, some c, some d, some tid, n⟩
      ⟨s, rc, a, c, d, tid, n⟩ rfl hsafe suffix uuidHex
      (fun ch hc => hhex.2 ch hc) now fs, ?_⟩
    rw [hk]
    rfl
  · intro hslash
    exact generate_fail_of_slash apiKey auth t hv
      ⟨some s, some rc, some a, some c, some d, some tid, n⟩
      ⟨s, rc, a, c, d, tid, n⟩ rfl hslash suffix uuidHex now fs

/-- C2 amended, witness: the empty transactionId is accepted and written
inside the store; the separator-carrying `"/../../evil"` is accepted but its
Generate fails with the 500 and writes nothing. -/
theorem c2_amended_witness :
    generate_affidavit "k" (some "Bearer k")
        ⟨some "Alice", some "Bob", some "100.5", some "USD", some sampleDate,
         some "", none⟩ "aaaaaaaa" sampleUuid sampleNow [] =
      (.ok ⟨"/download-affidavit/" ++ generatedFilename "" "aaaaaaaa",
            generatedFilename "" "aaaaaaaa"⟩,
       fsWrite [] (storageKey (generatedFilename "" "aaaaaaaa"))
         (.pdf (create_affidavit_elements
           ⟨"Alice", "Bob", "100.5", "USD", sampleDate, "", none⟩ sampleNow sampleUuid))) ∧
    generate_affidavit "k" (some "Bearer k")
        ⟨some "Alice", some "Bob", some "100.5", some "USD", some sampleDate,
         some "/../../evil", none⟩ "aaaaaaaa" sampleUuid sampleNow [] =
      (.error (.serverError "PDF generation failed"), []) := by
  have h1 := c2_amended "k" "Bearer k" "k" (by decide) "Alice" "Bob" "100.5" "USD"
    sampleDate "" none "aaaaaaaa" sampleUuid (by decide) sampleNow []
  have h2 := c2_amended "k" "Bearer k" "k" (by decide) "Alice" "Bob" "100.5" "USD"
    sampleDate "/../../evil" none "aaaaaaaa" sampleUuid (by decide) sampleNow []
  exact ⟨(h1.2.1 (by decide)).1, h2.2.2 (by decide)⟩

/-! ## C3: path traversal in Retrieve -/

/-- C3, confirmed.  Retrieve joins the caller-supplied filename to the
storage directory with no sanitization, so the filename `"../app.py"` — which
resolves to the path `app.py` outside the storage directory — makes Retrieve
with a valid credential stream that existing file's bytes instead of
reporting a not-found error. -/
theorem c3_traversal (apiKey auth t : String)
    (hv : verify_api_key apiKey auth = .ok t)
    (fs : FileSystem) (b : Blob) (hf : fsLookup fs ["app.py"] = some b) :
    insideStore (resolvePath (splitSegs (osJoin PDF_STORAGE_DIR "../app.py"))) = false ∧
    download_affidavit apiKey (some auth) "../app.py" fs = .ok (b, "../app.py") ∧
    download_affidavit apiKey (some auth) "../app.py" fs ≠
      .error (.notFound "PDF not found") := by
  have hkey : resolvePath (splitSegs (osJoin PDF_STORAGE_DIR "../app.py")) = ["app.py"] := by
    decide
  have hdl : download_affidavit apiKey (some auth) "../app.py" fs = .ok (b, "../app.py") := by
    rw [download_affidavit, hv]
    simp only [hkey, hf]
  exact ⟨by decide, hdl, by rw [hdl]; intro h; exact Except.noConfusion h⟩

/-- C3, witness: a filesystem holding the service's own source file next to
the storage directory, an empty blob store, and the default development key. -/
theorem c3_traversal_witness :
    insideStore (resolvePath (splitSegs (osJoin PDF_STORAGE_DIR "../app.py"))) = false ∧
    download_affidavit "your-development-api-key" (some "Bearer your-development-api-key")
        "../app.py" [(["app.py"], .raw "from fastapi import FastAPI")] =
      .ok (.raw "from fastapi import FastAPI", "../app.py") ∧
    download_affidavit "your-development-api-key" (some "Bearer your-development-api-key")
        "../app.py" [(["app.py"], .raw "from fastapi import FastAPI")] ≠
      .error (.notFound "PDF not found") :=
  c3_traversal "your-development-api-key" "Bearer your-development-api-key"
    "your-development-api-key" (by decide)
    [(["app.py"], .raw "from fastapi import FastAPI")]
    (.raw "from fastapi import FastAPI") (by decide)

/-! ## C4: not-found behaviour of Retrieve -/

/-- C4, counterexample.  The claim says every filename never produced by a
prior Generate yields a not-found error.  In a deployment state whose blob
store holds no generated artifact at all (so no filename was ever produced by
Generate) but where the service's own `app.py` exists next to the storage
directory, Retrieve of the never-generated filename `"../app.py"` with a
valid credential returns that file, not a not-found error. -/
theorem c4_counterexample :
    (([(["app.py"], Blob.raw "from fastapi import FastAPI")] : FileSystem).all
      (fun kv => !insideStore kv.1)) = true ∧
    download_affidavit "k" (some "Bearer k") "../app.py"
        [(["app.py"], Blob.raw "from fastapi import FastAPI")] =
      .ok (.raw "from fastapi import FastAPI", "../app.py") ∧
    download_affidavit "k" (some "Bearer k") "../app.py"
        [(["app.py"], Blob.raw "from fastapi import FastAPI")] ≠
      .error (.notFound "PDF not found") := by
  refine ⟨by decide, by decide, ?_⟩
  intro h
  rw [show download_affidavit "k" (some "Bearer k") "../app.py"
      [(["app.py"], Blob.raw "from fastapi import FastAPI")] =
      .ok (.raw "from fastapi import FastAPI", "../app.py") from by decide] at h
  exact Except.noConfusion h

/-- C4, amended.  With a valid credential, Retrieve yields the not-found
error exactly when no file exists at the resolved join of the storage
directory and the supplied filename; a filename never produced by Generate is
thus rejected only if it does not resolve (for instance via parent-directory
segments) to some existing file. -/
theorem c4_amended (apiKey auth t fname : String)
    (hv : verify_api_key apiKey auth = .ok t) (fs : FileSystem) :
    download_affidavit apiKey (some auth) fname fs = .error (.notFound "PDF not found") ↔
      fsLookup fs (storageKey fname) = none := by
  rw [download_affidavit, hv, storageKey]
  cases hl : fsLookup fs (resolvePath (splitSegs (osJoin PDF_STORAGE_DIR fname))) with
  | none => simp [hl]
  | some b =>
    simp only [hl]
    constructor
    · intro h; exact absurd h (by intro h'; exact Except.noConfusion h')
    · intro h; exact Option.noConfusion h

/-- C4 amended, witness: on an empty blob store, a fresh filename is
rejected with the not-found error. -/
theorem c4_amended_witness :
    download_affidavit "k" (some "Bearer k") "nope.pdf" [] =
      .error (.notFound "PDF not found") :=
  (c4_amended "k" "Bearer k" "k" "nope.pdf" (by decide) []).mpr (by decide)

/-! ## C5: Generate succeeds, filename pattern, uniqueness -/

/-- C5, confirmed.  For a valid record (transactionId filesystem-path-safe,
per the spec's validity invariant) and a correct credential, Generate
succeeds and returns a DocumentReference whose filename is exactly
`VAULT_Affidavit_{transactionId}_{suffix}.pdf` with the 8-hex random suffix,
and two calls with identical input but distinct random suffixes produce
distinct filenames; the second call stores under a different key, so the
first artifact is still retrievable unchanged afterwards (no collision, no
overwrite). -/
theorem c5_generate_unique (apiKey auth t : String)
    (hv : verify_api_key apiKey auth = .ok t)
    (raw : RawRequest) (req : AffidavitRequest) (hr : validateRequest raw = some req)
    (hsafe : ∀ c ∈ req.transactionId.data, c ≠ '/')
    (s1 s2 : String) (h1 : isHex8 s1) (h2 : isHex8 s2) (hne : s1 ≠ s2)
    (uuidHex1 uuidHex2 : String) (now1 now2 : DateTimeV) (fs : FileSystem) :
    generate_affidavit apiKey (some auth) raw s1 uuidHex1 now1 fs =
      (.ok ⟨"/download-affidavit/" ++ generatedFilename req.transactionId s1,
            generatedFilename req.transactionId s1⟩,
       fsWrite fs (storageKey (generatedFilename req.transactionId s1))
         (.pdf (create_affidavit_elements req now1 uuidHex1))) ∧
    generatedFilename req.transactionId s1 ≠ generatedFilename req.transactionId s2 ∧
    fsLookup
        (generate_affidavit apiKey (some auth) raw s2 uuidHex2 now2
          (generate_affidavit apiKey (some auth) raw s1 uuidHex1 now1 fs).2).2
        (storageKey (generatedFilename req.transactionId s1)) =
      some (.pdf (create_affidavit_elements req now1 uuidHex1)) := by
  have key_eq : ∀ s : String, isHex8 s →
      storageKey (generatedFilename req.transactionId s) =
        [PDF_STORAGE_DIR, generatedFilename req.transactionId s] := by
    intro s hs
    exact storageKey_sep_free _
      (generatedFilename_no_slash _ _ hsafe (fun c hc => hs.2 c hc))
      (generatedFilename_ne_empty _ _) (generatedFilename_ne_dot _ _)
      (generatedFilename_ne_dotdot _ _)
  have fne : generatedFilename req.transactionId s1 ≠ generatedFilename req.transactionId s2 :=
    fun h => hne (generatedFilename_inj_suffix _ _ _ h)
  have kne : storageKey (generatedFilename req.transactionId s2) ≠
      storageKey (generatedFilename req.transactionId s1) := by
    rw [key_eq s1 h1, key_eq s2 h2]
    intro h
    simp only [List.cons.injEq] at h
    exact fne h.2.1.symm
  have hgen1 : generate_affidavit apiKey (some auth) raw s1 uuidHex1 now1 fs =
      (.ok ⟨"/download-affidavit/" ++ generatedFilename req.transactionId s1,
            generatedFilename req.transactionId s1⟩,
       fsWrite fs (storageKey (generatedFilename req.transactionId s1))
         (.pdf (create_affidavit_elements req now1 uuidHex1))) :=
    generate_ok_of_sep_free apiKey auth t hv raw req hr hsafe s1 uuidHex1
      (fun c hc => h1.2 c hc) now1 fs
  have hgen2 : generate_affidavit apiKey (some auth) raw s2 uuidHex2 now2
      (generate_affidavit apiKey (some auth) raw s1 uuidHex1 now1 fs).2 =
      (.ok ⟨"/download-affidavit/" ++ generatedFilename req.transactionId s2,
            generatedFilename req.transactionId s2⟩,
       fsWrite (generate_affidavit apiKey (some auth) raw s1 uuidHex1 now1 fs).2
         (storageKey (generatedFilename req.transactionId s2))
         (.pdf (create_affidavit_elements req now2 uuidHex2))) :=
    generate_ok_of_sep_free apiKey auth t hv raw req hr hsafe s2 uuidHex2
      (fun c hc => h2.2 c hc) now2
      (generate_affidavit apiKey (some auth) raw s1 uuidHex1 now1 fs).2
  refine ⟨hgen1, fne, ?_⟩
  rw [hgen2]
  show fsLookup (fsWrite _ _ _) _ = _
  rw [fsLookup_write_other _ _ _ _ kne, hgen1]
  show fsLookup (fsWrite _ _ _) _ = _
  rw [fsLookup_write_same]

/-- C5, witness at the spec's end-to-end input with suffixes `aaaaaaaa` and
`bbbbbbbb`. -/
theorem c5_generate_unique_witness :
    generatedFilename "TX123" "aaaaaaaa" ≠ generatedFilename "TX123" "bbbbbbbb" ∧
    fsLookup
        (generate_affidavit "k" (some "Bearer k") sampleRaw "bbbbbbbb" sampleUuid sampleNow
          (generate_affidavit "k" (some "Bearer k") sampleRaw "aaaaaaaa" sampleUuid
            sampleNow []).2).2
        (storageKey (generatedFilename "TX123" "aaaaaaaa")) =
      some (.pdf (create_affidavit_elements sampleReq sampleNow sampleUuid)) := by
  have h := c5_generate_unique "k" "Bearer k" "k" (by decide) sampleRaw sampleReq
    (by decide) (by decide) "aaaaaaaa" "bbbbbbbb" (by decide) (by decide) (by decide)
    sampleUuid sampleUuid sampleNow sampleNow []
  exact ⟨h.2.1, h.2.2⟩

/-! ## C6: rows of the transaction detail table -/

/-- C6, confirmed.  For every record the detail table starts with exactly the
rows Transaction ID (value prefixed with `#`), Date, Sender, Receiver, Amount
(numeric text, a space, the currency code), in that order; it has exactly
those 5 rows when `notes` is absent or empty, and exactly 6 rows with a
`Notes` row last when `notes` is present and non-empty. -/
theorem c6_detail_rows (data : AffidavitRequest) :
    (data.notes = none ∨ data.notes = some "" →
      transaction_data data =
        [("Transaction ID", "#" ++ data.transactionId),
         ("Date", strftimeLongUTC data.date),
         ("Sender", data.sender),
         ("Receiver", data.receiver),
         ("Amount", data.amount ++ " " ++ data.currency)] ∧
      (transaction_data data).length = 5) ∧
    (∀ n, data.notes = some n → n ≠ "" →
      transaction_data data =
        [("Transaction ID", "#" ++ data.transactionId),
         ("Date", strftimeLongUTC data.date),
         ("Sender", data.sender),
         ("Receiver", data.receiver),
         ("Amount", data.amount ++ " " ++ data.currency),
         ("Notes", n)] ∧
      (transaction_data data).length = 6 ∧
      (transaction_data data).getLast? = some ("Notes", n)) := by
  constructor
  · rintro (h | h) <;> rw [transaction_data, h] <;> simp
  · intro n hn hne
    rw [transaction_data, hn]
    simp [hne]

/-- C6, witness: both the notes-free sample (5 rows) and a sample with notes
(6 rows, `Notes` last). -/
theorem c6_detail_rows_witness :
    transaction_data sampleReq =
      [("Transaction ID", "#TX123"),
       ("Date", "January 15, 2024 at 10:30:00 UTC"),
       ("Sender", "Alice"),
       ("Receiver", "Bob"),
       ("Amount", "100.5 USD")] ∧
    transaction_data { sampleReq with notes := some "Urgent" } =
      [("Transaction ID", "#TX123"),
       ("Date", "January 15, 2024 at 10:30:00 UTC"),
       ("Sender", "Alice"),
       ("Receiver", "Bob"),
       ("Amount", "100.5 USD"),
       ("Notes", "Urgent")] := by
  constructor
  · have h := ((c6_detail_rows sampleReq).1 (Or.inl rfl)).1
    rw [h]
    decide
  · have h := (((c6_detail_rows { sampleReq with notes := some "Urgent" }).2
      "Urgent" rfl (by decide))).1
    rw [h]
    decide

/-! ## C7: the verification table -/

/-- C7, confirmed.  For every `uuid4().hex` draw, the verification table has
exactly the 3 rows Verification Status (literal `VERIFIED`), Security Hash,
Platform (literal `VAULT Financial`), in that fixed order, and the Security
Hash value is exactly 12 uppercase hexadecimal characters. -/
theorem c7_verification_table (u : String) (hu : isUuidHex u) :
    verification_data u =
      [("Verification Status:", "VERIFIED"),
       ("Security Hash:", securityHash u),
       ("Platform:", "VAULT Financial")] ∧
    (verification_data u).length = 3 ∧
    (securityHash u).length = 12 ∧
    (∀ c ∈ (securityHash u).data, isUpperHexChar c = true) := by
  refine ⟨rfl, rfl, ?_, ?_⟩
  · show ((u.data.take 12).map Char.toUpper).length = 12
    rw [List.length_map, List.length_take, hu.1]
    decide
  · intro c hc
    rw [securityHash] at hc
    simp only [List.mem_map] at hc
    obtain ⟨c₀, hc₀, rfl⟩ := hc
    exact lowerHex_toUpper c₀ (hu.2 c₀ (List.take_subset 12 u.data hc₀))

/-- C7, witness at a concrete uuid hex value. -/
theorem c7_verification_table_witness :
    verification_data sampleUuid =
      [("Verification Status:", "VERIFIED"),
       ("Security Hash:", "0123456789AB"),
       ("Platform:", "VAULT Financial")] ∧
    ("0123456789AB" : String).length = 12 := by
  have h := c7_verification_table sampleUuid (by decide)
  have hs : securityHash sampleUuid = "0123456789AB" := by decide
  refine ⟨?_, by decide⟩
  rw [h.1, hs]

/-! ## C8: the Date row and UTC -/

/-- C8, counterexample.  The claim says a date carrying a timezone is
converted to UTC so the displayed wall-clock time labelled `UTC` is the
instant's actual UTC time.  For the input `2024-01-15T10:30:00+05:00` the
instant's UTC time is `05:30:00`, but the code formats the datetime's own
wall-clock fields and the Date row reads `10:30:00 UTC`. -/
theorem c8_counterexample :
    (transaction_data
        ⟨"Alice", "Bob", "100.5", "USD", ⟨2024, 1, 15, 10, 30, 0, some 300⟩,
         "TX123", none⟩).get? 1 =
      some ("Date", "January 15, 2024 at 10:30:00 UTC") ∧
    specToUTC ⟨2024, 1, 15, 10, 30, 0, some 300⟩ = ⟨2024, 1, 15, 5, 30, 0, some 0⟩ ∧
    strftimeLongUTC (specToUTC ⟨2024, 1, 15, 10, 30, 0, some 300⟩) =
      "January 15, 2024 at 05:30:00 UTC" ∧
    strftimeLongUTC ⟨2024, 1, 15, 10, 30, 0, some 300⟩ ≠
      strftimeLongUTC (specToUTC ⟨2024, 1, 15, 10, 30, 0, some 300⟩) := by
  refine ⟨by decide, by decide, by decide, by decide⟩

/-- C8, amended.  The Date row renders the transaction date's own wall-clock
fields as `Month DD, YYYY at HH:MM:SS UTC`: the rendering is identical for
every timezone offset (no conversion to UTC is performed), so only a date
whose offset is already zero — or a naive date, which the display thereby
treats as UTC — shows its actual UTC time under the `UTC` label. -/
theorem c8_amended (y mo d h mi s : Nat) (o o' : Option Int) :
    strftimeLongUTC ⟨y, mo, d, h, mi, s, o⟩ = strftimeLongUTC ⟨y, mo, d, h, mi, s, o'⟩ ∧
    (∀ data : AffidavitRequest,
      (transaction_data data).get? 1 = some ("Date", strftimeLongUTC data.date)) ∧
    (∀ dt : DateTimeV, dt.tzOffsetMinutes = none → specToUTC dt = dt) := by
  refine ⟨rfl, ?_, ?_⟩
  · intro data
    rw [transaction_data]
    rfl
  · intro dt hdt
    rw [specToUTC, hdt]

/-- C8 amended, witness: the offset is ignored at the counterexample's
concrete field values, and the sample record's Date row shows the formatted
transaction date. -/
theorem c8_amended_witness :
    strftimeLongUTC ⟨2024, 1, 15, 10, 30, 0, some 300⟩ =
      strftimeLongUTC ⟨2024, 1, 15, 10, 30, 0, none⟩ ∧
    (transaction_data sampleReq).get? 1 = some ("Date", strftimeLongUTC sampleDate) := by
  have h := c8_amended 2024 1 15 10 30 0 (some 300) none
  exact ⟨h.1, h.2.1 sampleReq⟩

/-! ## C9: Generate-then-Retrieve round trip -/

theorem download_found (apiKey auth t fname : String)
    (hv : verify_api_key apiKey auth = .ok t) (fs : FileSystem) (b : Blob)
    (hl : fsLookup fs (storageKey fname) = some b) :
    download_affidavit apiKey (some auth) fname fs = .ok (b, fname) := by
  simp only [download_affidavit, hv]
  rw [storageKey] at hl
  simp only [hl]

/-- C9, confirmed.  After a successful Generate, a Retrieve of the returned
filename with a valid credential returns exactly the stored artifact (the
blob written by Generate, unchanged) together with that filename; and since
`download_affidavit` is a pure function of the filesystem — retrieval never
writes — any repetition of the call returns the same result. -/
theorem c9_roundtrip (apiKey auth t : String)
    (hv : verify_api_key apiKey auth = .ok t)
    (raw : RawRequest) (req : AffidavitRequest) (hr : validateRequest raw = some req)
    (suffix uuidHex : String) (now : DateTimeV) (fs : FileSystem)
    (res : AffidavitResponse) (fs' : FileSystem)
    (hgen : generate_affidavit apiKey (some auth) raw suffix uuidHex now fs =
      (.ok res, fs')) :
    fsLookup fs' (storageKey res.filename) =
      some (.pdf (create_affidavit_elements req now uuidHex)) ∧
    download_affidavit apiKey (some auth) res.filename fs' =
      .ok (.pdf (create_affidavit_elements req now uuidHex), res.filename) := by
  have hg : generate_affidavit apiKey (some auth) raw suffix uuidHex now fs =
      (.ok ⟨"/download-affidavit/" ++ generatedFilename req.transactionId suffix,
            generatedFilename req.transactionId suffix⟩,
       fsWrite fs (storageKey (generatedFilename req.transactionId suffix))
         (.pdf (create_affidavit_elements req now uuidHex))) := by
    cases hw : openWriteOk (osJoin PDF_STORAGE_DIR
        (generatedFilename req.transactionId suffix)) with
    | false =>
      have hbad : generate_affidavit apiKey (some auth) raw suffix uuidHex now fs =
          (.error (.serverError "PDF generation failed"), fs) := by
        rw [generate_affidavit, hv, hr]
        simp only [hw, Bool.false_eq_true, if_false]
      rw [hgen] at hbad
      exact Except.noConfusion (congrArg Prod.fst hbad)
    | true =>
      rw [generate_affidavit, hv, hr]
      simp only [hw, if_true]
      rfl
  rw [hgen] at hg
  have hres : res =
      ⟨"/download-affidavit/" ++ generatedFilename req.transactionId suffix,
       generatedFilename req.transactionId suffix⟩ :=
    Except.ok.inj (congrArg Prod.fst hg)
  have hfs : fs' =
      fsWrite fs (storageKey (generatedFilename req.transactionId suffix))
        (.pdf (create_affidavit_elements req now uuidHex)) :=
    congrArg Prod.snd hg
  subst hres
  subst hfs
  have hl : fsLookup
      (fsWrite fs (storageKey (generatedFilename req.transactionId suffix))
        (.pdf (create_affidavit_elements req now uuidHex)))
      (storageKey (generatedFilename req.transactionId suffix)) =
      some (.pdf (create_affidavit_elements req now uuidHex)) :=
    fsLookup_write_same _ _ _
  exact ⟨hl, download_found apiKey auth t _ hv _ _ hl⟩

/-- C9, witness: the spec's end-to-end scenario input with a correct
credential; the stored artifact is retrieved byte-for-byte. -/
theorem c9_roundtrip_witness :
    fsLookup
        (generate_affidavit "k" (some "Bearer k") sampleRaw "aaaaaaaa" sampleUuid
          sampleNow []).2
        (storageKey (generatedFilename "TX123" "aaaaaaaa")) =
      some (.pdf (create_affidavit_elements sampleReq sampleNow sampleUuid)) ∧
    download_affidavit "k" (some "Bearer k") (generatedFilename "TX123" "aaaaaaaa")
        (generate_affidavit "k" (some "Bearer k") sampleRaw "aaaaaaaa" sampleUuid
          sampleNow []).2 =
      .ok (.pdf (create_affidavit_elements sampleReq sampleNow sampleUuid),
           generatedFilename "TX123" "aaaaaaaa") := by
  have h := c9_roundtrip "k" "Bearer k" "k" (by decide) sampleRaw sampleReq (by decide)
    "aaaaaaaa" sampleUuid sampleNow []
    ⟨"/download-affidavit/VAULT_Affidavit_TX123_aaaaaaaa.pdf",
     "VAULT_Affidavit_TX123_aaaaaaaa.pdf"⟩
    (generate_affidavit "k" (some "Bearer k") sampleRaw "aaaaaaaa" sampleUuid
      sampleNow []).2
    (Prod.ext (by decide) rfl)
  exact ⟨h.1, h.2⟩

/-! ## C10: the page decorator and canvas state -/

/-- C10, counterexample.  The claim says drawing-state mutations are
bracketed by save/restore on every exit path, error paths included, so the
canvas state after decoration (or after a failure) equals the entry state.
`add_page_elements` has no try/finally: an exception raised by its third
canvas call (the header-bar `rect`) exits the function after the first two
operations have run, and at that exit point the fill color has been changed
to the brand green and an unrestored entry sits on the save stack — the
canvas state is not what it was on entry. -/
theorem c10_counterexample :
    (add_page_elements sampleNow affidavitDoc).take 2 =
      [CanvasOp.saveState, CanvasOp.setFillColor .vaultGreen] ∧
    (execOps ⟨⟨.vaultBlack, .vaultBlack, "Helvetica", 12, 1, []⟩, [], []⟩
        ((add_page_elements sampleNow affidavitDoc).take 2)).g ≠
      (⟨⟨.vaultBlack, .vaultBlack, "Helvetica", 12, 1, []⟩, [], []⟩ : CanvasState).g ∧
    (execOps ⟨⟨.vaultBlack, .vaultBlack, "Helvetica", 12, 1, []⟩, [], []⟩
        ((add_page_elements sampleNow affidavitDoc).take 2)).saved ≠
      (⟨⟨.vaultBlack, .vaultBlack, "Helvetica", 12, 1, []⟩, [], []⟩ : CanvasState).saved := by
  refine ⟨by decide, by decide, by decide⟩

/-- C10, amended.  On the normal (exception-free) path the decorator's
drawing-state mutations are bracketed by save/restore — the outer
`saveState`/`restoreState` pair plus an inner pair around the watermark
transform — so after decoration completes the canvas graphics state and save
stack equal their entry values (only the emitted page output grows); there is
no try/finally, so this restoration is not guaranteed on error exits. -/
theorem c10_amended (now : DateTimeV) (doc : DocTemplateV) (s : CanvasState) :
    (execOps s (add_page_elements now doc)).g = s.g ∧
    (execOps s (add_page_elements now doc)).saved = s.saved := by
  exact ⟨rfl, rfl⟩

end VaultApi
